import Mathlib

/-!
Verification of the lateral torque controller
(`selfdrive/controls/lib/latcontrol_torque.py`).

The controller state, its tuning-sync routines (`detectChange`,
`detectChangeRight`, the split-tune selection inside `update`) and the
per-tick `update` entry point are embedded as pure functions over `ℚ`.
External collaborators that are not part of the source tree (the PID
primitive, the interpolation helper, the saturation debounce, constants
imported from other modules) are modelled from the specification and marked
as such in their doc comments.
-/

namespace OPGM

/-- Constant `LOW_SPEED_FACTOR` from the source (200). -/
def LOW_SPEED_FACTOR : ℚ := 200

/-- Constant `JERK_THRESHOLD` from the source (0.2). -/
def JERK_THRESHOLD : ℚ := 1/5

/-- Constant `LR_SPLIT_PT`, local to `update` in the source (0.0002). -/
def LR_SPLIT_PT : ℚ := 1/5000

/-- Modelled from the spec: `MIN_STEER_SPEED` is imported from the base
module `latcontrol.py`, which is outside the source tree; the spec requires
a positive minimum controllable speed.  The upstream constant is 0.3 m/s. -/
def MIN_STEER_SPEED : ℚ := 3/10

/-- Modelled from the spec: `ACCELERATION_DUE_TO_GRAVITY` is imported from
`vehicle_model.py`, outside the source tree; "g = standard gravitational
acceleration constant" (9.81). -/
def ACCELERATION_DUE_TO_GRAVITY : ℚ := 981/100

/-- Relative tolerance of `math.isclose` with default arguments
(`rel_tol = 1e-09`, `abs_tol = 0.0`); the source comments
"math.isclose compares to 9 digits". -/
def REL_TOL : ℚ := 1/1000000000

/-- Python `math.isclose a b` with default tolerances:
`|a - b| ≤ max (rel_tol * max |a| |b|) abs_tol` with `abs_tol = 0`. -/
def isclose (a b : ℚ) : Bool := decide (|a - b| ≤ REL_TOL * max |a| |b|)

/-- Modelled from the spec: the clamping helper used by the PID
collaborator (`np.clip`). -/
def clip (x lo hi : ℚ) : ℚ := max lo (min hi x)

/-- Modelled from the spec: the linear-interpolation collaborator
(`common/numpy_fast.interp`), specialised to the two-point breakpoint table
used by this controller: "maps a scalar through a piecewise-linear
breakpoint table with clamped extrapolation". -/
def interp2 (x x0 x1 y0 y1 : ℚ) : ℚ :=
  if x ≤ x0 then y0
  else if x ≥ x1 then y1
  else y0 + (x - x0) * (y1 - y0) / (x1 - x0)

/-- One tuning set, the payload of `CP.lateralTuning.torque` and
`CP.lateralTuningRight.torque`. -/
structure TorqueTuning where
  kp : ℚ
  ki : ℚ
  kd : ℚ
  kf : ℚ
  friction : ℚ
  useSteeringAngle : Bool
  deriving DecidableEq, Repr

/-- The `lateralTuning` wrapper: the source reads
`CP.lateralTuning.torque.…`. -/
structure LateralTuning where
  torque : TorqueTuning
  deriving DecidableEq, Repr

/-- The slice of the car-parameter configuration read by this controller.
The configuration object is shared and may be mutated externally between
ticks; theorems therefore quantify over arbitrary `CarParams` contents. -/
structure CarParams where
  lateralTuning : LateralTuning
  lateralTuningRight : LateralTuning
  lateralTuneSplit : Bool
  deriving DecidableEq, Repr

/-- Modelled from the spec: the external PID primitive (`pid.py` is outside
the source tree).  Spec §6: a "proportional/integral/derivative/feedforward
accumulator with override and integrator-freeze semantics", with output
clamped to `[neg_limit, pos_limit]`, live-mutable gain fields and an
accumulator `reset`.  The gain schedule `_k_p` / `_k_i` is a one-point
table for this controller, so it is carried as the scalars `k_p`, `k_i`
(the source writes `pid._k_p[1][0]`, `pid._k_i[1][0]`). -/
structure PIDController where
  k_p : ℚ
  k_i : ℚ
  k_d : ℚ
  k_f : ℚ
  pos_limit : ℚ
  neg_limit : ℚ
  p : ℚ
  i : ℚ
  d : ℚ
  f : ℚ
  deriving DecidableEq, Repr

/-- Modelled from the spec: the integration step of the PID collaborator
(one control-loop tick at 100 Hz). -/
def I_DT : ℚ := 1/100

/-- Modelled from the spec: `pid.update(error, override=…, feedforward=…,
speed=…, freeze_integrator=…)`.  "Override suspends closed-loop
correction"; "freezeIntegrator halts integral accumulation without
resetting it"; the output is clamped to `[neg_limit, pos_limit]`.  The
derivative term is zero because this caller passes no error rate. -/
def PIDController.update (pid : PIDController) (error : ℚ) (override : Bool)
    (feedforward : ℚ) (speed : ℚ) (freeze_integrator : Bool) :
    ℚ × PIDController :=
  let p := pid.k_p * error
  let f := pid.k_f * feedforward
  let d : ℚ := 0
  let i := if override || freeze_integrator then pid.i
           else clip (pid.i + pid.k_i * error * I_DT) pid.neg_limit pid.pos_limit
  let control := clip (p + i + d + f) pid.neg_limit pid.pos_limit
  (control, { pid with p := p, i := i, d := d, f := f })

/-- Modelled from the spec: `pid.reset()` clears the accumulators. -/
def PIDController.reset (pid : PIDController) : PIDController :=
  { pid with p := 0, i := 0, d := 0, f := 0 }

/-- The fields of the car state read by `update`. -/
structure CarState where
  vEgo : ℚ
  steeringAngleDeg : ℚ
  steeringPressed : Bool
  steeringRateLimited : Bool
  deriving DecidableEq, Repr

/-- Calibration / road state (`params`). -/
structure LiveParams where
  angleOffsetDeg : ℚ
  roll : ℚ
  deriving DecidableEq, Repr

/-- The vehicle-model collaborator.  Modelled from the spec:
`calcCurvature(angle, speed, roll) → curvature` is a "pure function"; the
degree-to-radian conversion `math.radians` applied at the call site is
folded into this opaque function, since both live outside the source
tree. -/
structure VehicleModel where
  calc_curvature : ℚ → ℚ → ℚ → ℚ

/-- The z component `llk.angularVelocityCalibrated.value[2]` (yaw rate). -/
structure LiveLocationKalman where
  angularVelocityCalibratedZ : ℚ
  deriving DecidableEq, Repr

/-- The diagnostics record `log.ControlsState.LateralTorqueState`. -/
structure LateralTorqueState where
  active : Bool
  usingRightTune : Bool
  saturated : Bool
  error : ℚ
  p : ℚ
  i : ℚ
  d : ℚ
  f : ℚ
  output : ℚ
  actualLateralAccel : ℚ
  desiredLateralAccel : ℚ
  deriving DecidableEq, Repr

/-- Capnp `new_message()`: all fields default to `0` / `false`. -/
def LateralTorqueState.new_message : LateralTorqueState :=
  { active := false, usingRightTune := false, saturated := false, error := 0,
    p := 0, i := 0, d := 0, f := 0, output := 0,
    actualLateralAccel := 0, desiredLateralAccel := 0 }

/-- Modelled from the spec: the saturation-check collaborator of the base
class — "given an instantaneous near-limit boolean and vehicle state,
returns a debounced/sustained saturation boolean".  Its debouncing policy
lives outside the source tree, so only its boolean interface is modelled
(identity on the near-limit flag). -/
def check_saturation (near_limit : Bool) (CS : CarState) : Bool := near_limit

/-- The controller state: `LatControlTorque.__init__` stores the
configuration reference, the PID primitive and cached copies of
`useSteeringAngle`, `friction` and the split-tune flag; `steer_max` comes
from the base class.  (The retrieved `get_steer_feedforward` function is
never invoked by `update` and carries no state, so it is not modelled.) -/
structure LatControlTorque where
  CP : CarParams
  pid : PIDController
  use_steering_angle : Bool
  friction : ℚ
  lateralTuneSplit : Bool
  steer_max : ℚ
  deriving DecidableEq, Repr

/-- Constructor `LatControlTorque.__init__`: the PID primitive is constructed with the
default tuning set's gains and `pos_limit = steer_max`,
`neg_limit = -steer_max`. -/
def LatControlTorque.init (CP : CarParams) (steer_max : ℚ) : LatControlTorque :=
  { CP := CP
    pid := { k_p := CP.lateralTuning.torque.kp, k_i := CP.lateralTuning.torque.ki,
             k_d := CP.lateralTuning.torque.kd, k_f := CP.lateralTuning.torque.kf,
             pos_limit := steer_max, neg_limit := -steer_max,
             p := 0, i := 0, d := 0, f := 0 }
    use_steering_angle := CP.lateralTuning.torque.useSteeringAngle
    friction := CP.lateralTuning.torque.friction
    lateralTuneSplit := CP.lateralTuneSplit
    steer_max := steer_max }

/-- Method `LatControlTorque.reset`: resets the PID accumulators (the base-class
part resets only the saturation debounce, which is not modelled). -/
def LatControlTorque.reset (self : LatControlTorque) : LatControlTorque :=
  { self with pid := self.pid.reset }

/-- Method `detectChange`: change-detection resync of the live gains against the
default tuning set `CP.lateralTuning.torque`; floating-point fields are
compared with `math.isclose` ("compares to 9 digits"), booleans by
equality, and only drifted fields are overwritten. -/
def LatControlTorque.detectChange (self : LatControlTorque) : LatControlTorque :=
  let t := self.CP.lateralTuning.torque
  let pid := if isclose self.pid.k_f t.kf then self.pid else { self.pid with k_f := t.kf }
  let pid := if isclose pid.k_p t.kp then pid else { pid with k_p := t.kp }
  let pid := if isclose pid.k_i t.ki then pid else { pid with k_i := t.ki }
  let usa := if self.use_steering_angle == t.useSteeringAngle then self.use_steering_angle
             else t.useSteeringAngle
  let fr := if isclose self.friction t.friction then self.friction else t.friction
  { self with pid := pid, use_steering_angle := usa, friction := fr }

/-- Method `detectChangeRight`: the same change-detection resync against the
right-turn tuning set `CP.lateralTuningRight.torque`. -/
def LatControlTorque.detectChangeRight (self : LatControlTorque) : LatControlTorque :=
  let t := self.CP.lateralTuningRight.torque
  let pid := if isclose self.pid.k_f t.kf then self.pid else { self.pid with k_f := t.kf }
  let pid := if isclose pid.k_p t.kp then pid else { pid with k_p := t.kp }
  let pid := if isclose pid.k_i t.ki then pid else { pid with k_i := t.ki }
  let usa := if self.use_steering_angle == t.useSteeringAngle then self.use_steering_angle
             else t.useSteeringAngle
  let fr := if isclose self.friction t.friction then self.friction else t.friction
  { self with pid := pid, use_steering_angle := usa, friction := fr }

/-- The tuning-selection phase of `update` (source lines 99–113): the
split-tune transition check followed, while split tune is enabled, by the
per-tick selection between the right-turn and default tuning sets.
Returns the updated controller state together with the `curve_is_right`
flag that `update` records as `usingRightTune`. -/
def LatControlTorque.syncTuning (self : LatControlTorque) (desired_curvature : ℚ) :
    LatControlTorque × Bool :=
  let self :=
    if self.lateralTuneSplit ≠ self.CP.lateralTuneSplit then
      let s := if self.CP.lateralTuneSplit = false then self.detectChange else self
      { s with lateralTuneSplit := s.CP.lateralTuneSplit }
    else self
  if self.CP.lateralTuneSplit then
    let curve_is_right := decide (desired_curvature ≥ LR_SPLIT_PT)
    (if curve_is_right then self.detectChangeRight else self.detectChange, curve_is_right)
  else
    (self, false)

/-- The friction term added to the feedforward (source lines 131–133):
`interp(desired_lateral_jerk, [-JERK_THRESHOLD, JERK_THRESHOLD],
[-self.friction, self.friction]) / self.CP.lateralTuning.torque.kf`.
Note that the divisor is read from the default tuning set in the
configuration, not from the PID's live `k_f`. -/
def LatControlTorque.frictionContribution (self : LatControlTorque)
    (desired_lateral_jerk : ℚ) : ℚ :=
  interp2 desired_lateral_jerk (-JERK_THRESHOLD) JERK_THRESHOLD
    (-self.friction) self.friction / self.CP.lateralTuning.torque.kf

/-- The body of the active branch of `update` (source lines 90–148), with
the actual curvature already computed and the division by the configured
`kf` already checked by the caller. -/
def LatControlTorque.activeTick (self : LatControlTorque) (CS : CarState)
    (params : LiveParams) (desired_curvature desired_curvature_rate : ℚ)
    (actual_curvature : ℚ) : ℚ × ℚ × LateralTorqueState × LatControlTorque :=
  let desired_lateral_accel := desired_curvature * CS.vEgo ^ 2
  let desired_lateral_jerk := desired_curvature_rate * CS.vEgo ^ 2
  let actual_lateral_accel := actual_curvature * CS.vEgo ^ 2
  let sy := self.syncTuning desired_curvature
  let self1 := sy.1
  let curve_is_right := sy.2
  let setpoint := desired_lateral_accel + LOW_SPEED_FACTOR * desired_curvature
  let measurement := actual_lateral_accel + LOW_SPEED_FACTOR * actual_curvature
  let error := setpoint - measurement
  let ff := desired_lateral_accel - params.roll * ACCELERATION_DUE_TO_GRAVITY
    + self1.frictionContribution desired_lateral_jerk
  let pr := self1.pid.update error CS.steeringPressed ff CS.vEgo CS.steeringRateLimited
  let output_torque := pr.1
  let pid2 := pr.2
  let self2 := { self1 with pid := pid2 }
  let lg : LateralTorqueState :=
    { active := true, usingRightTune := curve_is_right,
      saturated := check_saturation (decide (self2.steer_max - |output_torque| < 1/1000)) CS,
      error := error, p := pid2.p, i := pid2.i, d := pid2.d, f := pid2.f,
      output := -output_torque,
      actualLateralAccel := actual_lateral_accel,
      desiredLateralAccel := desired_lateral_accel }
  (-output_torque, 0, lg, self2)

/-- Method `LatControlTorque.update`, the per-tick entry point.  Fallible
operations are made explicit: the division `yawRate / vEgo` and the
division by the configured default `kf` return `none` exactly where the
source would raise `ZeroDivisionError`.  (The `kf` test is hoisted above
`activeTick`; this is sound because the tuning sync never writes the
configuration, so the divisor read inside `activeTick` is the tested
value.)  The unused `last_actuators` argument of the source is omitted. -/
def LatControlTorque.update (self : LatControlTorque) (active : Bool)
    (CS : CarState) (VM : VehicleModel) (params : LiveParams)
    (desired_curvature desired_curvature_rate : ℚ) (llk : LiveLocationKalman) :
    Option (ℚ × ℚ × LateralTorqueState × LatControlTorque) :=
  if CS.vEgo < MIN_STEER_SPEED ∨ active = false then
    let output_torque : ℚ := 0
    let pid_log := { LateralTorqueState.new_message with active := false }
    let self := if active = false then { self with pid := self.pid.reset } else self
    some (-output_torque, 0, pid_log, self)
  else
    let curvOpt : Option ℚ :=
      if self.use_steering_angle then
        some (-(VM.calc_curvature (CS.steeringAngleDeg - params.angleOffsetDeg)
                  CS.vEgo params.roll))
      else if CS.vEgo = 0 then none
      else some (llk.angularVelocityCalibratedZ / CS.vEgo)
    match curvOpt with
    | none => none
    | some actual_curvature =>
        if self.CP.lateralTuning.torque.kf = 0 then none
        else some (self.activeTick CS params desired_curvature desired_curvature_rate
                     actual_curvature)

/-! ### Helper lemmas -/

theorem isclose_self (a : ℚ) : isclose a a = true := by
  simp only [isclose, REL_TOL, sub_self, abs_zero, max_self, decide_eq_true_eq]
  positivity

theorem abs_clip_le (x m : ℚ) (hm : 0 ≤ m) : |clip x (-m) m| ≤ m := by
  unfold clip
  rw [abs_le]
  exact ⟨le_max_left _ _, max_le (by linarith) (min_le_left _ _)⟩

theorem PIDController.update_gains (pid : PIDController) (e : ℚ) (o : Bool)
    (ffw sp : ℚ) (fz : Bool) :
    (pid.update e o ffw sp fz).2.k_p = pid.k_p ∧
    (pid.update e o ffw sp fz).2.k_i = pid.k_i ∧
    (pid.update e o ffw sp fz).2.k_d = pid.k_d ∧
    (pid.update e o ffw sp fz).2.k_f = pid.k_f ∧
    (pid.update e o ffw sp fz).2.pos_limit = pid.pos_limit ∧
    (pid.update e o ffw sp fz).2.neg_limit = pid.neg_limit :=
  ⟨rfl, rfl, rfl, rfl, rfl, rfl⟩

theorem PIDController.update_k_f (pid : PIDController) (e : ℚ) (o : Bool)
    (ffw sp : ℚ) (fz : Bool) : (pid.update e o ffw sp fz).2.k_f = pid.k_f := rfl

theorem PIDController.update_k_p (pid : PIDController) (e : ℚ) (o : Bool)
    (ffw sp : ℚ) (fz : Bool) : (pid.update e o ffw sp fz).2.k_p = pid.k_p := rfl

theorem PIDController.update_k_i (pid : PIDController) (e : ℚ) (o : Bool)
    (ffw sp : ℚ) (fz : Bool) : (pid.update e o ffw sp fz).2.k_i = pid.k_i := rfl

theorem PIDController.update_fst (pid : PIDController) (e : ℚ) (o : Bool)
    (ffw sp : ℚ) (fz : Bool) :
    (pid.update e o ffw sp fz).1 =
      clip (pid.k_p * e + (pid.update e o ffw sp fz).2.i + 0 + pid.k_f * ffw)
        pid.neg_limit pid.pos_limit :=
  rfl

theorem detectChange_fields (s : LatControlTorque) :
    isclose s.detectChange.pid.k_f s.CP.lateralTuning.torque.kf = true ∧
    isclose s.detectChange.pid.k_p s.CP.lateralTuning.torque.kp = true ∧
    isclose s.detectChange.pid.k_i s.CP.lateralTuning.torque.ki = true ∧
    s.detectChange.use_steering_angle = s.CP.lateralTuning.torque.useSteeringAngle ∧
    isclose s.detectChange.friction s.CP.lateralTuning.torque.friction = true ∧
    s.detectChange.pid.p = s.pid.p ∧ s.detectChange.pid.i = s.pid.i ∧
    s.detectChange.pid.d = s.pid.d ∧ s.detectChange.pid.f = s.pid.f ∧
    s.detectChange.pid.k_d = s.pid.k_d ∧
    s.detectChange.pid.pos_limit = s.pid.pos_limit ∧
    s.detectChange.pid.neg_limit = s.pid.neg_limit ∧
    s.detectChange.CP = s.CP ∧ s.detectChange.steer_max = s.steer_max ∧
    s.detectChange.lateralTuneSplit = s.lateralTuneSplit := by
  unfold LatControlTorque.detectChange
  dsimp only
  split_ifs <;> simp_all [isclose_self]

theorem detectChangeRight_fields (s : LatControlTorque) :
    isclose s.detectChangeRight.pid.k_f s.CP.lateralTuningRight.torque.kf = true ∧
    isclose s.detectChangeRight.pid.k_p s.CP.lateralTuningRight.torque.kp = true ∧
    isclose s.detectChangeRight.pid.k_i s.CP.lateralTuningRight.torque.ki = true ∧
    s.detectChangeRight.use_steering_angle = s.CP.lateralTuningRight.torque.useSteeringAngle ∧
    isclose s.detectChangeRight.friction s.CP.lateralTuningRight.torque.friction = true ∧
    s.detectChangeRight.pid.p = s.pid.p ∧ s.detectChangeRight.pid.i = s.pid.i ∧
    s.detectChangeRight.pid.d = s.pid.d ∧ s.detectChangeRight.pid.f = s.pid.f ∧
    s.detectChangeRight.pid.k_d = s.pid.k_d ∧
    s.detectChangeRight.pid.pos_limit = s.pid.pos_limit ∧
    s.detectChangeRight.pid.neg_limit = s.pid.neg_limit ∧
    s.detectChangeRight.CP = s.CP ∧ s.detectChangeRight.steer_max = s.steer_max ∧
    s.detectChangeRight.lateralTuneSplit = s.lateralTuneSplit := by
  unfold LatControlTorque.detectChangeRight
  dsimp only
  split_ifs <;> simp_all [isclose_self]

theorem syncTuning_off_off (s : LatControlTorque) (dc : ℚ)
    (h1 : s.lateralTuneSplit = false) (h2 : s.CP.lateralTuneSplit = false) :
    s.syncTuning dc = (s, false) := by
  unfold LatControlTorque.syncTuning
  simp [h1, h2]

theorem syncTuning_on_off (s : LatControlTorque) (dc : ℚ)
    (h1 : s.lateralTuneSplit = true) (h2 : s.CP.lateralTuneSplit = false) :
    s.syncTuning dc = ({ s.detectChange with lateralTuneSplit := false }, false) := by
  unfold LatControlTorque.syncTuning
  have hCP : s.detectChange.CP = s.CP := (detectChange_fields s).2.2.2.2.2.2.2.2.2.2.2.2.1
  simp [h1, h2, hCP]

theorem syncTuning_enabled_fst (s : LatControlTorque) (dc : ℚ)
    (h2 : s.CP.lateralTuneSplit = true) :
    ∃ s1 : LatControlTorque, s1.CP = s.CP ∧ s1.pid = s.pid ∧
      s1.friction = s.friction ∧ s1.use_steering_angle = s.use_steering_angle ∧
      s1.steer_max = s.steer_max ∧
      (s.syncTuning dc).1 =
        (if dc ≥ LR_SPLIT_PT then s1.detectChangeRight else s1.detectChange) ∧
      (s.syncTuning dc).2 = decide (dc ≥ LR_SPLIT_PT) := by
  unfold LatControlTorque.syncTuning
  cases hc : s.lateralTuneSplit
  · refine ⟨{ s with lateralTuneSplit := true }, rfl, rfl, rfl, rfl, rfl, ?_, ?_⟩ <;>
      simp [hc, h2]
  · refine ⟨s, rfl, rfl, rfl, rfl, rfl, ?_, ?_⟩ <;>
      simp [hc, h2]

theorem update_early (s : LatControlTorque) (active : Bool) (CS : CarState)
    (VM : VehicleModel) (params : LiveParams) (dc dcr : ℚ)
    (llk : LiveLocationKalman)
    (h : CS.vEgo < MIN_STEER_SPEED ∨ active = false) :
    s.update active CS VM params dc dcr llk =
      some (0, 0, LateralTorqueState.new_message,
        if active = false then { s with pid := s.pid.reset } else s) := by
  unfold LatControlTorque.update
  rw [if_pos h]
  norm_num [LateralTorqueState.new_message]

theorem update_active_eq (s : LatControlTorque) (CS : CarState)
    (VM : VehicleModel) (params : LiveParams) (dc dcr : ℚ)
    (llk : LiveLocationKalman)
    (hv : MIN_STEER_SPEED ≤ CS.vEgo)
    (hkf : s.CP.lateralTuning.torque.kf ≠ 0) :
    s.update true CS VM params dc dcr llk =
      some (s.activeTick CS params dc dcr
        (if s.use_steering_angle then
          -(VM.calc_curvature (CS.steeringAngleDeg - params.angleOffsetDeg)
              CS.vEgo params.roll)
         else llk.angularVelocityCalibratedZ / CS.vEgo)) := by
  have h0 : ¬ CS.vEgo < MIN_STEER_SPEED := not_lt.mpr hv
  have hne : CS.vEgo ≠ 0 := by
    intro h
    rw [h] at hv
    norm_num [MIN_STEER_SPEED] at hv
  unfold LatControlTorque.update
  by_cases hu : s.use_steering_angle <;> simp [h0, hne, hu, hkf]

theorem detectChange_CP (s : LatControlTorque) : s.detectChange.CP = s.CP := rfl

theorem detectChangeRight_CP (s : LatControlTorque) : s.detectChangeRight.CP = s.CP := rfl

theorem detectChange_pos_limit (s : LatControlTorque) :
    s.detectChange.pid.pos_limit = s.pid.pos_limit := by
  unfold LatControlTorque.detectChange
  dsimp only
  split_ifs <;> rfl

theorem detectChange_neg_limit (s : LatControlTorque) :
    s.detectChange.pid.neg_limit = s.pid.neg_limit := by
  unfold LatControlTorque.detectChange
  dsimp only
  split_ifs <;> rfl

theorem detectChangeRight_pos_limit (s : LatControlTorque) :
    s.detectChangeRight.pid.pos_limit = s.pid.pos_limit := by
  unfold LatControlTorque.detectChangeRight
  dsimp only
  split_ifs <;> rfl

theorem detectChangeRight_neg_limit (s : LatControlTorque) :
    s.detectChangeRight.pid.neg_limit = s.pid.neg_limit := by
  unfold LatControlTorque.detectChangeRight
  dsimp only
  split_ifs <;> rfl

theorem detectChangeRight_friction_eq (s : LatControlTorque) :
    s.detectChangeRight.friction =
      (if isclose s.friction s.CP.lateralTuningRight.torque.friction then s.friction
       else s.CP.lateralTuningRight.torque.friction) := rfl

theorem syncTuning_CP (s : LatControlTorque) (dc : ℚ) :
    (s.syncTuning dc).1.CP = s.CP := by
  unfold LatControlTorque.syncTuning
  dsimp only
  split_ifs <;> simp [detectChange_CP, detectChangeRight_CP]

theorem syncTuning_pid_limits (s : LatControlTorque) (dc : ℚ) :
    (s.syncTuning dc).1.pid.pos_limit = s.pid.pos_limit ∧
    (s.syncTuning dc).1.pid.neg_limit = s.pid.neg_limit := by
  unfold LatControlTorque.syncTuning
  dsimp only
  split_ifs <;>
    simp [detectChange_pos_limit, detectChange_neg_limit,
      detectChangeRight_pos_limit, detectChangeRight_neg_limit]

theorem activeTick_state (s : LatControlTorque) (CS : CarState)
    (params : LiveParams) (dc dcr ac : ℚ) :
    (s.activeTick CS params dc dcr ac).2.2.2.pid.k_f = (s.syncTuning dc).1.pid.k_f ∧
    (s.activeTick CS params dc dcr ac).2.2.2.pid.k_p = (s.syncTuning dc).1.pid.k_p ∧
    (s.activeTick CS params dc dcr ac).2.2.2.pid.k_i = (s.syncTuning dc).1.pid.k_i ∧
    (s.activeTick CS params dc dcr ac).2.2.2.friction = (s.syncTuning dc).1.friction ∧
    (s.activeTick CS params dc dcr ac).2.2.2.use_steering_angle =
      (s.syncTuning dc).1.use_steering_angle ∧
    (s.activeTick CS params dc dcr ac).2.2.2.lateralTuneSplit =
      (s.syncTuning dc).1.lateralTuneSplit ∧
    (s.activeTick CS params dc dcr ac).2.2.1.usingRightTune = (s.syncTuning dc).2 :=
  ⟨rfl, rfl, rfl, rfl, rfl, rfl, rfl⟩

theorem activeTick_k_f (s : LatControlTorque) (CS : CarState) (params : LiveParams)
    (dc dcr ac : ℚ) :
    (s.activeTick CS params dc dcr ac).2.2.2.pid.k_f = (s.syncTuning dc).1.pid.k_f := rfl

theorem activeTick_k_p (s : LatControlTorque) (CS : CarState) (params : LiveParams)
    (dc dcr ac : ℚ) :
    (s.activeTick CS params dc dcr ac).2.2.2.pid.k_p = (s.syncTuning dc).1.pid.k_p := rfl

theorem activeTick_k_i (s : LatControlTorque) (CS : CarState) (params : LiveParams)
    (dc dcr ac : ℚ) :
    (s.activeTick CS params dc dcr ac).2.2.2.pid.k_i = (s.syncTuning dc).1.pid.k_i := rfl

theorem activeTick_friction (s : LatControlTorque) (CS : CarState) (params : LiveParams)
    (dc dcr ac : ℚ) :
    (s.activeTick CS params dc dcr ac).2.2.2.friction = (s.syncTuning dc).1.friction := rfl

theorem activeTick_usa (s : LatControlTorque) (CS : CarState) (params : LiveParams)
    (dc dcr ac : ℚ) :
    (s.activeTick CS params dc dcr ac).2.2.2.use_steering_angle =
      (s.syncTuning dc).1.use_steering_angle := rfl

theorem activeTick_split_flag (s : LatControlTorque) (CS : CarState) (params : LiveParams)
    (dc dcr ac : ℚ) :
    (s.activeTick CS params dc dcr ac).2.2.2.lateralTuneSplit =
      (s.syncTuning dc).1.lateralTuneSplit := rfl

theorem activeTick_usingRightTune (s : LatControlTorque) (CS : CarState)
    (params : LiveParams) (dc dcr ac : ℚ) :
    (s.activeTick CS params dc dcr ac).2.2.1.usingRightTune = (s.syncTuning dc).2 := rfl

theorem activeTick_error (s : LatControlTorque) (CS : CarState)
    (params : LiveParams) (dc dcr ac : ℚ) :
    (s.activeTick CS params dc dcr ac).2.2.1.error =
      (dc * CS.vEgo ^ 2 + LOW_SPEED_FACTOR * dc)
        - (ac * CS.vEgo ^ 2 + LOW_SPEED_FACTOR * ac) :=
  rfl

theorem activeTick_fst (s : LatControlTorque) (CS : CarState)
    (params : LiveParams) (dc dcr ac : ℚ) :
    (s.activeTick CS params dc dcr ac).1 =
      -((s.syncTuning dc).1.pid.update
          ((dc * CS.vEgo ^ 2 + LOW_SPEED_FACTOR * dc)
            - (ac * CS.vEgo ^ 2 + LOW_SPEED_FACTOR * ac))
          CS.steeringPressed
          (dc * CS.vEgo ^ 2 - params.roll * ACCELERATION_DUE_TO_GRAVITY
            + (s.syncTuning dc).1.frictionContribution (dcr * CS.vEgo ^ 2))
          CS.vEgo CS.steeringRateLimited).1 :=
  rfl

/-! ### Concrete fixtures used by witnesses and counterexamples -/

/-- A plain tuning set (`kf = 1`, everything else inert). -/
def tunPlain : TorqueTuning :=
  { kp := 0, ki := 0, kd := 0, kf := 1, friction := 0, useSteeringAngle := false }

/-- A right-turn tuning set with a different `kf` and a nonzero friction. -/
def tunRightX : TorqueTuning :=
  { kp := 0, ki := 0, kd := 0, kf := 2, friction := 1, useSteeringAngle := false }

/-- A default tuning set whose `kf` has drifted away from a cached `1`. -/
def tunDrift : TorqueTuning :=
  { kp := 0, ki := 0, kd := 0, kf := 2, friction := 0, useSteeringAngle := false }

/-- A tuning set with `kf = 0` (the unguarded friction divisor). -/
def tunZeroKf : TorqueTuning :=
  { kp := 0, ki := 0, kd := 0, kf := 0, friction := 0, useSteeringAngle := false }

def cpPlain : CarParams :=
  { lateralTuning := ⟨tunPlain⟩, lateralTuningRight := ⟨tunPlain⟩,
    lateralTuneSplit := false }

def cpSplit : CarParams :=
  { lateralTuning := ⟨tunPlain⟩, lateralTuningRight := ⟨tunRightX⟩,
    lateralTuneSplit := true }

def cpDrift : CarParams :=
  { lateralTuning := ⟨tunDrift⟩, lateralTuningRight := ⟨tunDrift⟩,
    lateralTuneSplit := false }

def cpZeroKf : CarParams :=
  { lateralTuning := ⟨tunZeroKf⟩, lateralTuningRight := ⟨tunZeroKf⟩,
    lateralTuneSplit := false }

/-- A trivial vehicle model (never applied on the exercised paths). -/
def VM0 : VehicleModel := ⟨fun _ _ _ => 0⟩

/-- A car state at standstill (`vEgo = 0 < MIN_STEER_SPEED`). -/
def CS0 : CarState :=
  { vEgo := 0, steeringAngleDeg := 0, steeringPressed := false,
    steeringRateLimited := false }

/-- A car state above `MIN_STEER_SPEED`. -/
def CS1 : CarState :=
  { vEgo := 1, steeringAngleDeg := 0, steeringPressed := false,
    steeringRateLimited := false }

def P0 : LiveParams := { angleOffsetDeg := 0, roll := 0 }

def L0 : LiveLocationKalman := ⟨0⟩

/-- A freshly constructed controller with a nonzero integrator (`i = 5`). -/
def sInt5 : LatControlTorque :=
  { LatControlTorque.init cpPlain 1 with
    pid := { (LatControlTorque.init cpPlain 1).pid with i := 5 } }

/-- A controller whose cached PID `k_f = 1` has drifted from `cpDrift`'s
`kf = 2`, with split tune disabled on both sides. -/
def sDrift : LatControlTorque :=
  { CP := cpDrift
    pid := { k_p := 0, k_i := 0, k_d := 0, k_f := 1, pos_limit := 1,
             neg_limit := -1, p := 0, i := 0, d := 0, f := 0 }
    use_steering_angle := false, friction := 0, lateralTuneSplit := false
    steer_max := 1 }

/-- A controller constructed on the split-tune configuration. -/
def sSplit : LatControlTorque := LatControlTorque.init cpSplit 1

/-- A controller whose cached split flag is still `true` while the
configuration has split tune disabled. -/
def sJustOff : LatControlTorque :=
  { LatControlTorque.init cpPlain 1 with lateralTuneSplit := true }

/-- A controller configured with the zero `kf`. -/
def sZeroKf : LatControlTorque := LatControlTorque.init cpZeroKf 1

/-! ### Claim C1 -/

/-- Claim C1 counterexample: at a concrete tick with `active = true` and
`vEgo = 0 < MIN_STEER_SPEED`, `update` returns torque `0.0` but the PID
integrator is NOT cleared (it stays at `5`), refuting "the PID integrator
is reset (its accumulators are cleared) on that tick" for the
below-minimum-speed-but-active case. -/
theorem C1_counterexample :
    (sInt5.update true CS0 VM0 P0 0 0 L0).map (fun r => (r.1, r.2.2.2.pid.i))
      = some (0, 5) ∧ ((5:ℚ) ≠ 0) ∧ CS0.vEgo < MIN_STEER_SPEED := by
  have hc : CS0.vEgo < MIN_STEER_SPEED := by norm_num [CS0, MIN_STEER_SPEED]
  refine ⟨?_, by norm_num, hc⟩
  rw [update_early sInt5 true CS0 VM0 P0 0 0 L0 (Or.inl hc)]
  simp [sInt5]

/-- Claim C1 (amended): on every tick with `active = false` or
`vEgo < MIN_STEER_SPEED`, `update` returns `torqueCommand` exactly `0.0`;
the PID accumulators are cleared on that tick exactly when `active` is
false — when `active` is true but the speed is below `MIN_STEER_SPEED`,
the controller state (the integrator included) is left unchanged. -/
theorem C1_gate_zero_torque_reset_only_when_inactive
    (s : LatControlTorque) (active : Bool) (CS : CarState) (VM : VehicleModel)
    (params : LiveParams) (dc dcr : ℚ) (llk : LiveLocationKalman)
    (h : CS.vEgo < MIN_STEER_SPEED ∨ active = false) :
    ∃ lg s', s.update active CS VM params dc dcr llk = some (0, 0, lg, s') ∧
      (active = false →
        s'.pid.p = 0 ∧ s'.pid.i = 0 ∧ s'.pid.d = 0 ∧ s'.pid.f = 0) ∧
      (active = true → s' = s) := by
  refine ⟨_, _, update_early s active CS VM params dc dcr llk h, ?_, ?_⟩
  · intro ha
    simp [ha, PIDController.reset]
  · intro ha
    simp [ha]

/-- Witness for C1 at a concrete inactive tick. -/
theorem C1_witness :
    ∃ lg s', sInt5.update false CS0 VM0 P0 0 0 L0 = some (0, 0, lg, s') ∧
      ((false : Bool) = false →
        s'.pid.p = 0 ∧ s'.pid.i = 0 ∧ s'.pid.d = 0 ∧ s'.pid.f = 0) ∧
      ((false : Bool) = true → s' = sInt5) :=
  C1_gate_zero_torque_reset_only_when_inactive sInt5 false CS0 VM0 P0 0 0 L0
    (Or.inr rfl)

/-! ### Claim C2 -/

/-- Claim C2 counterexample: split tune is disabled in both the cache and
the configuration, the configured default `kf = 2` has drifted from the
live PID `k_f = 1` (far beyond the 9-digit tolerance), and still an active
tick leaves `k_f = 1` — no resync happens, refuting the claimed
change-detection resync for the split-tune-disabled case.  (The call that
would do it is commented out in the source.) -/
theorem C2_counterexample :
    (∃ τ y lg s', sDrift.update true CS1 VM0 P0 0 0 L0 = some (τ, y, lg, s') ∧
       s'.pid.k_f = 1) ∧
    sDrift.CP.lateralTuning.torque.kf = 2 ∧ isclose 1 2 = false ∧
    sDrift.lateralTuneSplit = false ∧ sDrift.CP.lateralTuneSplit = false := by
  refine ⟨?_, rfl, ?_, rfl, rfl⟩
  · have hv : MIN_STEER_SPEED ≤ CS1.vEgo := by norm_num [MIN_STEER_SPEED, CS1]
    have hkf : sDrift.CP.lateralTuning.torque.kf ≠ 0 := by norm_num [sDrift, cpDrift, tunDrift]
    rw [update_active_eq sDrift CS1 VM0 P0 0 0 L0 hv hkf]
    exact ⟨_, _, _, _, rfl, rfl⟩
  · simp only [isclose, REL_TOL, decide_eq_false_iff_not]
    norm_num

/-- Claim C2 (amended): on an active tick at or above `MIN_STEER_SPEED`
with split tune disabled in both the cache and the configuration, `update`
performs no resync at all: the PID's live gains and the cached `friction`
and `useSteeringAngle` are left unchanged regardless of any drift of the
default tuning set. -/
theorem C2_no_resync_when_split_disabled
    (s : LatControlTorque) (CS : CarState) (VM : VehicleModel)
    (params : LiveParams) (dc dcr : ℚ) (llk : LiveLocationKalman)
    (hv : MIN_STEER_SPEED ≤ CS.vEgo)
    (hkf : s.CP.lateralTuning.torque.kf ≠ 0)
    (h1 : s.lateralTuneSplit = false) (h2 : s.CP.lateralTuneSplit = false) :
    ∃ τ y lg s', s.update true CS VM params dc dcr llk = some (τ, y, lg, s') ∧
      s'.pid.k_f = s.pid.k_f ∧ s'.pid.k_p = s.pid.k_p ∧
      s'.pid.k_i = s.pid.k_i ∧ s'.friction = s.friction ∧
      s'.use_steering_angle = s.use_steering_angle := by
  rw [update_active_eq s CS VM params dc dcr llk hv hkf]
  refine ⟨_, _, _, _, rfl, ?_, ?_, ?_, ?_, ?_⟩ <;>
    · obtain ⟨e1, e2, e3, e4, e5, _, _⟩ :=
        activeTick_state s CS params dc dcr
          (if s.use_steering_angle then
            -(VM.calc_curvature (CS.steeringAngleDeg - params.angleOffsetDeg)
                CS.vEgo params.roll)
           else llk.angularVelocityCalibratedZ / CS.vEgo)
      simp [e1, e2, e3, e4, e5, syncTuning_off_off s dc h1 h2,
        PIDController.update_k_f, PIDController.update_k_p,
        PIDController.update_k_i]

/-- Witness for C2 at a concrete drifted-configuration tick. -/
theorem C2_witness :
    ∃ τ y lg s', sDrift.update true CS1 VM0 P0 0 0 L0 = some (τ, y, lg, s') ∧
      s'.pid.k_f = sDrift.pid.k_f ∧ s'.pid.k_p = sDrift.pid.k_p ∧
      s'.pid.k_i = sDrift.pid.k_i ∧ s'.friction = sDrift.friction ∧
      s'.use_steering_angle = sDrift.use_steering_angle :=
  C2_no_resync_when_split_disabled sDrift CS1 VM0 P0 0 0 L0
    (by norm_num [MIN_STEER_SPEED, CS1]) (by decide) rfl rfl

/-! ### Claim C3 -/

/-- The friction contribution as claim C3 words it: computed entirely from
the ACTIVE tuning set's own `friction` and `kf`.  This definition follows
the claim's words for a refinement comparison; it is not drawn from the
source. -/
def frictionContributionSpec (t : TorqueTuning) (desired_lateral_jerk : ℚ) : ℚ :=
  interp2 desired_lateral_jerk (-JERK_THRESHOLD) JERK_THRESHOLD
    (-t.friction) t.friction / t.kf

/-- Claim C3 counterexample: with split tune enabled, a right-turn tick
(`desiredCurvature = 1 ≥ LR_SPLIT_PT`) and saturated jerk (`1 ≥
JERK_THRESHOLD`), the source computes friction contribution `1` (the
synced right-set friction divided by the DEFAULT set's `kf = 1`), while
the claim's "active tuning set's values" (right set: `friction = 1`,
`kf = 2`) would give `1/2`. -/
theorem C3_counterexample :
    cpSplit.lateralTuneSplit = true ∧ ((1:ℚ) ≥ LR_SPLIT_PT) ∧
    ((1:ℚ) ≥ JERK_THRESHOLD) ∧
    ((sSplit.syncTuning 1).1.frictionContribution 1 = 1) ∧
    (frictionContributionSpec cpSplit.lateralTuningRight.torque 1 = 1/2) ∧
    ((1:ℚ) ≠ 1/2) := by
  have hsync : sSplit.syncTuning 1 = (sSplit.detectChangeRight, true) := by
    unfold LatControlTorque.syncTuning
    have hc : decide ((1:ℚ) ≥ LR_SPLIT_PT) = true := by norm_num [LR_SPLIT_PT]
    simp [sSplit, cpSplit, LatControlTorque.init, hc]
  have hfr : sSplit.detectChangeRight.friction = 1 := by
    rw [detectChangeRight_friction_eq]
    have : isclose sSplit.friction sSplit.CP.lateralTuningRight.torque.friction = false := by
      simp only [isclose, REL_TOL, decide_eq_false_iff_not]
      norm_num [sSplit, cpSplit, tunPlain, tunRightX, LatControlTorque.init]
    rw [this]
    · rfl
  refine ⟨rfl, by norm_num [LR_SPLIT_PT], by norm_num [JERK_THRESHOLD], ?_, ?_, by norm_num⟩
  · rw [hsync]
    unfold LatControlTorque.frictionContribution
    rw [hfr, detectChangeRight_CP]
    norm_num [interp2, JERK_THRESHOLD, sSplit, cpSplit, tunPlain, LatControlTorque.init]
  · norm_num [frictionContributionSpec, interp2, JERK_THRESHOLD, cpSplit, tunRightX]

/-- Claim C3 (amended): the friction term added to the feedforward is
computed from the controller's cached `friction` (kept within tolerance of
the active tuning set by the sync) but divided by the DEFAULT tuning set's
configured `kf` (`CP.lateralTuning.torque.kf`), not the active set's: it
equals `+friction/kf` for jerk ≥ `JERK_THRESHOLD` (0.2), `-friction/kf`
for jerk ≤ `-JERK_THRESHOLD`, is linear
(`friction * jerk / JERK_THRESHOLD / kf`) in between, and is zero at
jerk = 0. -/
theorem C3_friction_compensation_shape (s : LatControlTorque) (j : ℚ) :
    (JERK_THRESHOLD ≤ j →
      s.frictionContribution j = s.friction / s.CP.lateralTuning.torque.kf) ∧
    (j ≤ -JERK_THRESHOLD →
      s.frictionContribution j = -s.friction / s.CP.lateralTuning.torque.kf) ∧
    (-JERK_THRESHOLD ≤ j → j ≤ JERK_THRESHOLD →
      s.frictionContribution j =
        s.friction * j / JERK_THRESHOLD / s.CP.lateralTuning.torque.kf) ∧
    s.frictionContribution 0 = 0 := by
  unfold LatControlTorque.frictionContribution interp2 JERK_THRESHOLD
  refine ⟨?_, ?_, ?_, ?_⟩
  · intro h
    rw [if_neg (by linarith), if_pos (by linarith)]
  · intro h
    rw [if_pos (by linarith), neg_div]
  · intro h1 h2
    by_cases ha : j ≤ -(1/5)
    · have hj : j = -(1/5) := le_antisymm ha h1
      rw [if_pos ha, hj]
      ring
    · by_cases hb : j ≥ (1/5 : ℚ)
      · have hj : j = 1/5 := le_antisymm h2 hb
        rw [if_neg ha, if_pos hb, hj]
        ring
      · rw [if_neg ha, if_neg hb]
        ring
  · norm_num
    exact Or.inl (by ring)

/-- Witness for C3 at a concrete controller and jerk value. -/
theorem C3_witness :
    (JERK_THRESHOLD ≤ (1:ℚ) →
      sSplit.frictionContribution 1 =
        sSplit.friction / sSplit.CP.lateralTuning.torque.kf) ∧
    ((1:ℚ) ≤ -JERK_THRESHOLD →
      sSplit.frictionContribution 1 =
        -sSplit.friction / sSplit.CP.lateralTuning.torque.kf) ∧
    (-JERK_THRESHOLD ≤ (1:ℚ) → (1:ℚ) ≤ JERK_THRESHOLD →
      sSplit.frictionContribution 1 =
        sSplit.friction * 1 / JERK_THRESHOLD / sSplit.CP.lateralTuning.torque.kf) ∧
    sSplit.frictionContribution 0 = 0 :=
  C3_friction_compensation_shape sSplit 1

/-! ### Claim C4 -/

/-- Claim C4 (confirmed): on every active tick at or above
`MIN_STEER_SPEED` with the configuration's split-tune flag enabled, the
`usingRightTune` diagnostic equals `desiredCurvature ≥ LR_SPLIT_PT`
(0.0002), and on that very same tick the PID's live gains (`kf`, `kp`,
`ki`) and the cached `friction` are within the `math.isclose` tolerance of
the selected tuning set's values, while `useSteeringAngle` matches it
exactly — right-turn set when selected, default set otherwise, with no
one-tick lag; this holds on every such tick. -/
theorem C4_split_tune_same_tick_resync
    (s : LatControlTorque) (CS : CarState) (VM : VehicleModel)
    (params : LiveParams) (dc dcr : ℚ) (llk : LiveLocationKalman)
    (hv : MIN_STEER_SPEED ≤ CS.vEgo)
    (hkf : s.CP.lateralTuning.torque.kf ≠ 0)
    (hsp : s.CP.lateralTuneSplit = true) :
    ∃ τ y lg s', s.update true CS VM params dc dcr llk = some (τ, y, lg, s') ∧
      lg.usingRightTune = decide (dc ≥ LR_SPLIT_PT) ∧
      (dc ≥ LR_SPLIT_PT →
        isclose s'.pid.k_f s.CP.lateralTuningRight.torque.kf = true ∧
        isclose s'.pid.k_p s.CP.lateralTuningRight.torque.kp = true ∧
        isclose s'.pid.k_i s.CP.lateralTuningRight.torque.ki = true ∧
        isclose s'.friction s.CP.lateralTuningRight.torque.friction = true ∧
        s'.use_steering_angle = s.CP.lateralTuningRight.torque.useSteeringAngle) ∧
      (¬ dc ≥ LR_SPLIT_PT →
        isclose s'.pid.k_f s.CP.lateralTuning.torque.kf = true ∧
        isclose s'.pid.k_p s.CP.lateralTuning.torque.kp = true ∧
        isclose s'.pid.k_i s.CP.lateralTuning.torque.ki = true ∧
        isclose s'.friction s.CP.lateralTuning.torque.friction = true ∧
        s'.use_steering_angle = s.CP.lateralTuning.torque.useSteeringAngle) := by
  rw [update_active_eq s CS VM params dc dcr llk hv hkf]
  obtain ⟨s1, hCP, hpid, hfr, husa, hsm, hfst, hsnd⟩ := syncTuning_enabled_fst s dc hsp
  refine ⟨_, _, _, _, rfl, ?_, ?_, ?_⟩
  · exact hsnd
  · intro hdc
    obtain ⟨c1, c2, c3, c4, c5, -⟩ := detectChangeRight_fields s1
    rw [hCP] at c1 c2 c3 c4 c5
    dsimp only
    rw [hfst, if_pos hdc]
    exact ⟨c1, c2, c3, c5, c4⟩
  · intro hdc
    obtain ⟨c1, c2, c3, c4, c5, -⟩ := detectChange_fields s1
    rw [hCP] at c1 c2 c3 c4 c5
    dsimp only
    rw [hfst, if_neg hdc]
    exact ⟨c1, c2, c3, c5, c4⟩

/-- Witness for C4 at a concrete right-turn tick on the split-tune
configuration. -/
theorem C4_witness :
    ∃ τ y lg s', sSplit.update true CS1 VM0 P0 1 0 L0 = some (τ, y, lg, s') ∧
      lg.usingRightTune = decide ((1:ℚ) ≥ LR_SPLIT_PT) ∧
      ((1:ℚ) ≥ LR_SPLIT_PT →
        isclose s'.pid.k_f sSplit.CP.lateralTuningRight.torque.kf = true ∧
        isclose s'.pid.k_p sSplit.CP.lateralTuningRight.torque.kp = true ∧
        isclose s'.pid.k_i sSplit.CP.lateralTuningRight.torque.ki = true ∧
        isclose s'.friction sSplit.CP.lateralTuningRight.torque.friction = true ∧
        s'.use_steering_angle = sSplit.CP.lateralTuningRight.torque.useSteeringAngle) ∧
      (¬ (1:ℚ) ≥ LR_SPLIT_PT →
        isclose s'.pid.k_f sSplit.CP.lateralTuning.torque.kf = true ∧
        isclose s'.pid.k_p sSplit.CP.lateralTuning.torque.kp = true ∧
        isclose s'.pid.k_i sSplit.CP.lateralTuning.torque.ki = true ∧
        isclose s'.friction sSplit.CP.lateralTuning.torque.friction = true ∧
        s'.use_steering_angle = sSplit.CP.lateralTuning.torque.useSteeringAngle) :=
  C4_split_tune_same_tick_resync sSplit CS1 VM0 P0 1 0 L0
    (by norm_num [MIN_STEER_SPEED, CS1]) (by norm_num [sSplit, cpSplit, tunPlain, LatControlTorque.init]) rfl

/-! ### Claim C5 -/

/-- Claim C5 (confirmed; the clamp of the PID collaborator is modelled
from the spec): for a controller whose PID limits are as configured at
construction (`pos_limit = steer_max`, `neg_limit = -steer_max`,
`0 ≤ steer_max`), every tick that returns a value satisfies
`|torqueCommand| ≤ steer_max`. -/
theorem C5_torque_bounded
    (s : LatControlTorque) (active : Bool) (CS : CarState) (VM : VehicleModel)
    (params : LiveParams) (dc dcr : ℚ) (llk : LiveLocationKalman)
    (hpos : s.pid.pos_limit = s.steer_max)
    (hneg : s.pid.neg_limit = -s.steer_max)
    (hm : 0 ≤ s.steer_max) :
    ∀ r, s.update active CS VM params dc dcr llk = some r → |r.1| ≤ s.steer_max := by
  intro r hr
  by_cases hgate : CS.vEgo < MIN_STEER_SPEED ∨ active = false
  · rw [update_early s active CS VM params dc dcr llk hgate] at hr
    simp only [Option.some.injEq] at hr
    rw [← hr]
    simpa using hm
  · push_neg at hgate
    obtain ⟨hv', ha⟩ := hgate
    have ha' : active = true := by
      cases active
      · exact absurd rfl ha
      · rfl
    subst ha'
    by_cases hkf : s.CP.lateralTuning.torque.kf = 0
    · exfalso
      have hne : CS.vEgo ≠ 0 := by
        intro h
        rw [h] at hv'
        norm_num [MIN_STEER_SPEED] at hv'
      unfold LatControlTorque.update at hr
      rw [if_neg (by push_neg; exact ⟨hv', by simp⟩)] at hr
      by_cases hu : s.use_steering_angle <;> simp [hu, hkf, hne] at hr
    · rw [update_active_eq s CS VM params dc dcr llk (not_lt.mp (not_lt.mpr hv')) hkf] at hr
      simp only [Option.some.injEq] at hr
      rw [← hr, activeTick_fst, PIDController.update_fst, abs_neg,
        (syncTuning_pid_limits s dc).1, (syncTuning_pid_limits s dc).2, hpos, hneg]
      exact abs_clip_le _ _ hm

/-- Witness for C5 at a concrete inactive tick. -/
theorem C5_witness :
    ∃ r, sDrift.update false CS0 VM0 P0 0 0 L0 = some r ∧
      |r.1| ≤ sDrift.steer_max := by
  have hb := C5_torque_bounded sDrift false CS0 VM0 P0 0 0 L0 rfl rfl (by norm_num [sDrift])
  have he := update_early sDrift false CS0 VM0 P0 0 0 L0 (Or.inr rfl)
  exact ⟨_, he, hb _ he⟩

/-! ### Claim C6 -/

/-- Claim C6 (confirmed): on every active tick at or above
`MIN_STEER_SPEED`, the error handed to the PID equals
`setpoint - measurement` with
`setpoint = desiredLateralAccel + LOW_SPEED_FACTOR * desiredCurvature`,
`measurement = actualLateralAccel + LOW_SPEED_FACTOR * actualCurvature`,
`desiredLateralAccel = desiredCurvature * vEgo²` and
`actualLateralAccel = actualCurvature * vEgo²`; equivalently
`error = (desiredCurvature - actualCurvature) * (vEgo² + LOW_SPEED_FACTOR)`
with `LOW_SPEED_FACTOR = 200`. -/
theorem C6_error_formula
    (s : LatControlTorque) (CS : CarState) (VM : VehicleModel)
    (params : LiveParams) (dc dcr : ℚ) (llk : LiveLocationKalman)
    (hv : MIN_STEER_SPEED ≤ CS.vEgo)
    (hkf : s.CP.lateralTuning.torque.kf ≠ 0) :
    ∃ τ y lg s', s.update true CS VM params dc dcr llk = some (τ, y, lg, s') ∧
      lg.error =
        (dc * CS.vEgo ^ 2 + LOW_SPEED_FACTOR * dc)
          - ((if s.use_steering_angle then
                -(VM.calc_curvature (CS.steeringAngleDeg - params.angleOffsetDeg)
                    CS.vEgo params.roll)
              else llk.angularVelocityCalibratedZ / CS.vEgo) * CS.vEgo ^ 2
            + LOW_SPEED_FACTOR *
              (if s.use_steering_angle then
                -(VM.calc_curvature (CS.steeringAngleDeg - params.angleOffsetDeg)
                    CS.vEgo params.roll)
              else llk.angularVelocityCalibratedZ / CS.vEgo)) ∧
      lg.error =
        (dc - (if s.use_steering_angle then
                -(VM.calc_curvature (CS.steeringAngleDeg - params.angleOffsetDeg)
                    CS.vEgo params.roll)
              else llk.angularVelocityCalibratedZ / CS.vEgo))
          * (CS.vEgo ^ 2 + LOW_SPEED_FACTOR) ∧
      LOW_SPEED_FACTOR = 200 := by
  rw [update_active_eq s CS VM params dc dcr llk hv hkf]
  refine ⟨_, _, _, _, rfl, ?_, ?_, rfl⟩
  · rfl
  · dsimp only
    ring

/-- Witness for C6 at a concrete active tick. -/
theorem C6_witness :
    ∃ τ y lg s', sDrift.update true CS1 VM0 P0 1 0 L0 = some (τ, y, lg, s') ∧
      lg.error =
        ((1:ℚ) * CS1.vEgo ^ 2 + LOW_SPEED_FACTOR * 1)
          - ((if sDrift.use_steering_angle then
                -(VM0.calc_curvature (CS1.steeringAngleDeg - P0.angleOffsetDeg)
                    CS1.vEgo P0.roll)
              else L0.angularVelocityCalibratedZ / CS1.vEgo) * CS1.vEgo ^ 2
            + LOW_SPEED_FACTOR *
              (if sDrift.use_steering_angle then
                -(VM0.calc_curvature (CS1.steeringAngleDeg - P0.angleOffsetDeg)
                    CS1.vEgo P0.roll)
              else L0.angularVelocityCalibratedZ / CS1.vEgo)) ∧
      lg.error =
        ((1:ℚ) - (if sDrift.use_steering_angle then
                -(VM0.calc_curvature (CS1.steeringAngleDeg - P0.angleOffsetDeg)
                    CS1.vEgo P0.roll)
              else L0.angularVelocityCalibratedZ / CS1.vEgo))
          * (CS1.vEgo ^ 2 + LOW_SPEED_FACTOR) ∧
      LOW_SPEED_FACTOR = 200 :=
  C6_error_formula sDrift CS1 VM0 P0 1 0 L0 (by norm_num [MIN_STEER_SPEED, CS1])
    (by norm_num [sDrift, cpDrift, tunDrift])

/-! ### Claim C7 -/

/-- Claim C7 (confirmed): on every tick with `active = false` or
`vEgo < MIN_STEER_SPEED`, `update` returns torque `0.0` and the fresh
diagnostics record (`active = false`, `usingRightTune = false`, every other
field at its default — nothing further was computed), the tuning state
(configuration, cached friction, `useSteeringAngle`, split flag, live
gains) is untouched, and the PID accumulators are reset exactly when
`active = false` (when `active = true` the state is returned unchanged). -/
theorem C7_early_return
    (s : LatControlTorque) (active : Bool) (CS : CarState) (VM : VehicleModel)
    (params : LiveParams) (dc dcr : ℚ) (llk : LiveLocationKalman)
    (h : CS.vEgo < MIN_STEER_SPEED ∨ active = false) :
    ∃ s', s.update active CS VM params dc dcr llk =
        some (0, 0, LateralTorqueState.new_message, s') ∧
      s'.CP = s.CP ∧ s'.friction = s.friction ∧
      s'.use_steering_angle = s.use_steering_angle ∧
      s'.lateralTuneSplit = s.lateralTuneSplit ∧ s'.steer_max = s.steer_max ∧
      s'.pid.k_p = s.pid.k_p ∧ s'.pid.k_i = s.pid.k_i ∧ s'.pid.k_f = s.pid.k_f ∧
      (active = false → s'.pid = s.pid.reset) ∧ (active = true → s' = s) := by
  refine ⟨_, update_early s active CS VM params dc dcr llk h, ?_⟩
  cases active <;> simp [PIDController.reset]

/-- Witness for C7 at a concrete below-minimum-speed active tick. -/
theorem C7_witness :
    ∃ s', sInt5.update true CS0 VM0 P0 0 0 L0 =
        some (0, 0, LateralTorqueState.new_message, s') ∧
      s'.CP = sInt5.CP ∧ s'.friction = sInt5.friction ∧
      s'.use_steering_angle = sInt5.use_steering_angle ∧
      s'.lateralTuneSplit = sInt5.lateralTuneSplit ∧
      s'.steer_max = sInt5.steer_max ∧
      s'.pid.k_p = sInt5.pid.k_p ∧ s'.pid.k_i = sInt5.pid.k_i ∧
      s'.pid.k_f = sInt5.pid.k_f ∧
      ((true : Bool) = false → s'.pid = sInt5.pid.reset) ∧
      ((true : Bool) = true → s' = sInt5) :=
  C7_early_return sInt5 true CS0 VM0 P0 0 0 L0
    (Or.inl (by norm_num [CS0, MIN_STEER_SPEED]))

/-! ### Claim C8 -/

/-- Claim C8 (confirmed): when the cached split-tune flag is still `true`
but the configuration now has split tune disabled, the next active tick's
tuning-sync phase resyncs the live gains onto the default tuning set
(within the `isclose` tolerance), clears the cached flag, and does NOT
reset the PID accumulators — the sync leaves `p`, `i`, `d`, `f` unchanged;
the same gain resync is visible on the full tick's resulting state. -/
theorem C8_disable_split_resync_preserves_integrator
    (s : LatControlTorque) (CS : CarState) (VM : VehicleModel)
    (params : LiveParams) (dc dcr : ℚ) (llk : LiveLocationKalman)
    (hv : MIN_STEER_SPEED ≤ CS.vEgo)
    (hkf : s.CP.lateralTuning.torque.kf ≠ 0)
    (h1 : s.lateralTuneSplit = true) (h2 : s.CP.lateralTuneSplit = false) :
    ((s.syncTuning dc).1.pid.i = s.pid.i ∧
     (s.syncTuning dc).1.pid.p = s.pid.p ∧
     (s.syncTuning dc).1.pid.d = s.pid.d ∧
     (s.syncTuning dc).1.pid.f = s.pid.f ∧
     (s.syncTuning dc).1.lateralTuneSplit = false ∧
     isclose (s.syncTuning dc).1.pid.k_f s.CP.lateralTuning.torque.kf = true ∧
     isclose (s.syncTuning dc).1.pid.k_p s.CP.lateralTuning.torque.kp = true ∧
     isclose (s.syncTuning dc).1.pid.k_i s.CP.lateralTuning.torque.ki = true ∧
     isclose (s.syncTuning dc).1.friction s.CP.lateralTuning.torque.friction = true ∧
     (s.syncTuning dc).1.use_steering_angle =
       s.CP.lateralTuning.torque.useSteeringAngle) ∧
    (∃ τ y lg s', s.update true CS VM params dc dcr llk = some (τ, y, lg, s') ∧
      isclose s'.pid.k_f s.CP.lateralTuning.torque.kf = true ∧
      isclose s'.pid.k_p s.CP.lateralTuning.torque.kp = true ∧
      isclose s'.pid.k_i s.CP.lateralTuning.torque.ki = true ∧
      isclose s'.friction s.CP.lateralTuning.torque.friction = true ∧
      s'.use_steering_angle = s.CP.lateralTuning.torque.useSteeringAngle ∧
      s'.lateralTuneSplit = false) := by
  have hsync := syncTuning_on_off s dc h1 h2
  obtain ⟨c1, c2, c3, c4, c5, c6, c7, c8, c9, -, -, -, -, -, -⟩ :=
    detectChange_fields s
  constructor
  · rw [hsync]
    exact ⟨c7, c6, c8, c9, rfl, c1, c2, c3, c5, c4⟩
  · rw [update_active_eq s CS VM params dc dcr llk hv hkf]
    refine ⟨_, _, _, _, rfl, ?_, ?_, ?_, ?_, ?_, ?_⟩
    · dsimp only
      rw [hsync]
      exact c1
    · dsimp only
      rw [hsync]
      exact c2
    · dsimp only
      rw [hsync]
      exact c3
    · dsimp only
      rw [hsync]
      exact c5
    · dsimp only
      rw [hsync]
      exact c4
    · dsimp only
      rw [hsync]

/-- Witness for C8 at a concrete tick where split tune was just disabled. -/
theorem C8_witness :
    ((sJustOff.syncTuning 0).1.pid.i = sJustOff.pid.i ∧
     (sJustOff.syncTuning 0).1.pid.p = sJustOff.pid.p ∧
     (sJustOff.syncTuning 0).1.pid.d = sJustOff.pid.d ∧
     (sJustOff.syncTuning 0).1.pid.f = sJustOff.pid.f ∧
     (sJustOff.syncTuning 0).1.lateralTuneSplit = false ∧
     isclose (sJustOff.syncTuning 0).1.pid.k_f
       sJustOff.CP.lateralTuning.torque.kf = true ∧
     isclose (sJustOff.syncTuning 0).1.pid.k_p
       sJustOff.CP.lateralTuning.torque.kp = true ∧
     isclose (sJustOff.syncTuning 0).1.pid.k_i
       sJustOff.CP.lateralTuning.torque.ki = true ∧
     isclose (sJustOff.syncTuning 0).1.friction
       sJustOff.CP.lateralTuning.torque.friction = true ∧
     (sJustOff.syncTuning 0).1.use_steering_angle =
       sJustOff.CP.lateralTuning.torque.useSteeringAngle) ∧
    (∃ τ y lg s', sJustOff.update true CS1 VM0 P0 0 0 L0 = some (τ, y, lg, s') ∧
      isclose s'.pid.k_f sJustOff.CP.lateralTuning.torque.kf = true ∧
      isclose s'.pid.k_p sJustOff.CP.lateralTuning.torque.kp = true ∧
      isclose s'.pid.k_i sJustOff.CP.lateralTuning.torque.ki = true ∧
      isclose s'.friction sJustOff.CP.lateralTuning.torque.friction = true ∧
      s'.use_steering_angle = sJustOff.CP.lateralTuning.torque.useSteeringAngle ∧
      s'.lateralTuneSplit = false) :=
  C8_disable_split_resync_preserves_integrator sJustOff CS1 VM0 P0 0 0 L0
    (by norm_num [MIN_STEER_SPEED, CS1])
    (by norm_num [sJustOff, cpPlain, tunPlain, LatControlTorque.init]) rfl rfl

/-! ### Claim C9 -/

/-- Claim C9 counterexample: the friction-compensation division by the
configured default `kf` is unguarded — with `kf = 0` an otherwise
ordinary active tick fails (the source would raise `ZeroDivisionError`),
so `update` is not total over its whole input domain. -/
theorem C9_counterexample :
    sZeroKf.update true CS1 VM0 P0 0 0 L0 = none ∧
    sZeroKf.CP.lateralTuning.torque.kf = 0 ∧
    MIN_STEER_SPEED ≤ CS1.vEgo := by
  refine ⟨?_, rfl, by norm_num [MIN_STEER_SPEED, CS1]⟩
  unfold LatControlTorque.update
  rw [if_neg (by push_neg; exact ⟨by norm_num [CS1, MIN_STEER_SPEED], by simp⟩)]
  norm_num [sZeroKf, cpZeroKf, tunZeroKf, LatControlTorque.init, CS1]

/-- Claim C9 (amended): for every input whose configured default-set `kf`
is nonzero, `update` returns a value — in particular the actual-curvature
division `yawRate / vEgo` is reached only past the `MIN_STEER_SPEED` gate
and `MIN_STEER_SPEED > 0`, so speed is bounded away from zero at every
division by speed; totality holds only up to the unguarded `kf` divisor. -/
theorem C9_total_unless_kf_zero
    (s : LatControlTorque) (active : Bool) (CS : CarState) (VM : VehicleModel)
    (params : LiveParams) (dc dcr : ℚ) (llk : LiveLocationKalman)
    (hkf : s.CP.lateralTuning.torque.kf ≠ 0) :
    (s.update active CS VM params dc dcr llk).isSome = true ∧
      0 < MIN_STEER_SPEED := by
  refine ⟨?_, by norm_num [MIN_STEER_SPEED]⟩
  by_cases hgate : CS.vEgo < MIN_STEER_SPEED ∨ active = false
  · rw [update_early s active CS VM params dc dcr llk hgate]
    rfl
  · push_neg at hgate
    obtain ⟨hv', ha⟩ := hgate
    have ha' : active = true := by
      cases active
      · exact absurd rfl ha
      · rfl
    subst ha'
    rw [update_active_eq s CS VM params dc dcr llk hv' hkf]
    rfl

/-- Witness for C9 on a nonzero-`kf` configuration. -/
theorem C9_witness :
    (sDrift.update true CS1 VM0 P0 0 0 L0).isSome = true ∧
      0 < MIN_STEER_SPEED :=
  C9_total_unless_kf_zero sDrift true CS1 VM0 P0 0 0 L0
    (by norm_num [sDrift, cpDrift, tunDrift])

/-! ### Claim C10 -/

/-- Copy of `s` with the right-turn tuning set's `kf` replaced by `k` — used to
state that the friction divisor never depends on the right set's `kf`. -/
def withRightKf (s : LatControlTorque) (k : ℚ) : LatControlTorque :=
  { s with CP := { s.CP with lateralTuningRight :=
      ⟨{ s.CP.lateralTuningRight.torque with kf := k }⟩ } }

/-- Claim C10 (confirmed): the divisor of the friction compensation is
always the DEFAULT tuning set's configured `kf`
(`CP.lateralTuning.torque.kf`): even on a split-tune tick that selects the
right-turn set, the post-sync friction contribution divides by the default
`kf`, is completely independent of the right set's `kf` (replacing it by
any value changes nothing), and never reads the PID's live `k_f`
(replacing the whole PID state changes nothing). -/
theorem C10_divisor_is_default_kf
    (s : LatControlTorque) (dc j k : ℚ) (pidX : PIDController)
    (hsp : s.CP.lateralTuneSplit = true) (hdc : dc ≥ LR_SPLIT_PT) :
    ((s.syncTuning dc).1).frictionContribution j =
      interp2 j (-JERK_THRESHOLD) JERK_THRESHOLD
        (-(s.syncTuning dc).1.friction) ((s.syncTuning dc).1.friction)
        / s.CP.lateralTuning.torque.kf ∧
    ((withRightKf s k).syncTuning dc).1.frictionContribution j =
      ((s.syncTuning dc).1).frictionContribution j ∧
    ({ s with pid := pidX }).frictionContribution j = s.frictionContribution j := by
  obtain ⟨s1, hCP, hpid, hfr, husa, hsm, hfst, hsnd⟩ := syncTuning_enabled_fst s dc hsp
  obtain ⟨s2, hCP2, hpid2, hfr2, husa2, hsm2, hfst2, hsnd2⟩ :=
    syncTuning_enabled_fst (withRightKf s k) dc hsp
  refine ⟨?_, ?_, rfl⟩
  · unfold LatControlTorque.frictionContribution
    rw [syncTuning_CP]
  · unfold LatControlTorque.frictionContribution
    rw [syncTuning_CP, syncTuning_CP, hfst, hfst2, if_pos hdc, if_pos hdc,
      detectChangeRight_friction_eq, detectChangeRight_friction_eq,
      hCP, hCP2, hfr, hfr2]
    rfl

/-- Witness for C10 at a concrete split-tune right-turn tick. -/
theorem C10_witness :
    ((sSplit.syncTuning 1).1).frictionContribution 1 =
      interp2 1 (-JERK_THRESHOLD) JERK_THRESHOLD
        (-(sSplit.syncTuning 1).1.friction) ((sSplit.syncTuning 1).1.friction)
        / sSplit.CP.lateralTuning.torque.kf ∧
    ((withRightKf sSplit 7).syncTuning 1).1.frictionContribution 1 =
      ((sSplit.syncTuning 1).1).frictionContribution 1 ∧
    ({ sSplit with pid := sDrift.pid }).frictionContribution 1 =
      sSplit.frictionContribution 1 :=
  C10_divisor_is_default_kf sSplit 1 1 7 sDrift.pid rfl
    (by norm_num [LR_SPLIT_PT])

end OPGM
